import Mathlib

/-!
Verification of the Ledger & Query Engine of the Fatture-fornitori
accounts-payable application.

The development shallowly embeds:
- the entity model of `src/types.ts` (Supplier, InvoiceRow, Invoice,
  InvoiceWithSupplier),
- the balance engine and persistence/backup routines of
  `src/services/storage.ts` and `src/unnamed/part_003`
  (`calculateInvoiceBalance`, `getInvoiceInitialAmount`, `getSuppliers`,
  `getInvoices`, `deleteSupplier`, `deleteAllSuppliers`, `exportDatabase`,
  `importDatabase`),
- the dashboard classification, filtering, sorting and aggregation logic
  of `src/unnamed/part_001` (`ActiveInvoicesTab`'s bucket construction and
  `applyFilters`, `HistoryTab`'s settled-invoice query).

Monetary values are modelled as rationals (JavaScript numbers, with
exactness where the source performs plain arithmetic).  Where a claim is
about JavaScript's dynamic coercion semantics (`Number(x)` on possibly
missing or non-numeric values), a separate explicit model of JavaScript
values is used, with `Option ℚ` as the numeric domain and `none` playing
the role of `NaN`, which absorbs through arithmetic exactly as `NaN` does.
Calendar parsing (`new Date(s).getMonth()` etc.) is a platform facility;
it is abstracted as a `DateModel` record and every theorem that touches it
is quantified over all date models.
-/

/-- JavaScript runtime values that can sit in a row's `credit`/`debit`
slot when data arrives untyped (e.g. from a restored JSON backup):
a genuine number, a numeric string, a non-numeric string, `null`,
`undefined` (the missing field), or a boolean. -/
inductive JSVal where
  | num (q : ℚ)
  | strNum (q : ℚ)
  | strBad
  | nullv
  | undef
  | boolv (b : Bool)

/-- JavaScript's `Number(x)` coercion: numbers pass through, numeric
strings parse, `null` gives `0`, booleans give `0`/`1`, while `undefined`
and non-numeric strings give `NaN` (modelled as `none`). -/
def jsNumber : JSVal → Option ℚ
  | JSVal.num q => some q
  | JSVal.strNum q => some q
  | JSVal.strBad => none
  | JSVal.nullv => some 0
  | JSVal.undef => none
  | JSVal.boolv b => some (if b then 1 else 0)

/-- JavaScript addition on (possibly `NaN`) numbers: `NaN` absorbs. -/
def jsAdd : Option ℚ → Option ℚ → Option ℚ
  | some x, some y => some (x + y)
  | _, _ => none

/-- JavaScript subtraction on (possibly `NaN`) numbers: `NaN` absorbs. -/
def jsSub : Option ℚ → Option ℚ → Option ℚ
  | some x, some y => some (x - y)
  | _, _ => none

/-- A ledger row as the dynamic semantics sees it: the two monetary
slots hold arbitrary JavaScript values. -/
structure JSRow where
  credit : JSVal
  debit : JSVal

/-- Dynamic-semantics reading of `calculateInvoiceBalance`
(src/services/storage.ts line 36): fold of
`acc + (Number(row.credit) - Number(row.debit))` over the rows,
starting from `0`, in JavaScript arithmetic. -/
def calculateInvoiceBalanceJS (rows : List JSRow) : Option ℚ :=
  rows.foldl (fun acc r => jsAdd acc (jsSub (jsNumber r.credit) (jsNumber r.debit))) (some 0)

/-- Dynamic-semantics reading of `getInvoiceInitialAmount`
(src/services/storage.ts lines 39-42): `0` for an empty row list,
otherwise `Number` of the first row's `credit`. -/
def getInvoiceInitialAmountJS (rows : List JSRow) : Option ℚ :=
  match rows with
  | [] => some 0
  | r :: _ => jsNumber r.credit

/-- Supplier entity (src/types.ts). -/
structure Supplier where
  id : String
  name : String
  iban : String
  email : String
  phone : String
  notes : String
  is_merchandise : Bool

/-- A typed ledger row (src/types.ts): monetary amounts are numbers. -/
structure InvoiceRow where
  id : String
  date : String
  description : String
  protocol : String
  credit : ℚ
  debit : ℚ

/-- The possible shapes of an invoice's `rows` slot as seen by
`calculateInvoiceBalance`'s guard `!invoice.rows || !Array.isArray(invoice.rows)`:
null/undefined, some non-array value, or an actual array of rows. -/
inductive RowsField where
  | nullish
  | notArray
  | arr (rows : List InvoiceRow)

/-- Invoice entity (src/types.ts); `rows` keeps the dynamic shape so the
defensive guards in the balance engine are expressible. -/
structure Invoice where
  id : String
  supplier_id : String
  creation_date : String
  rows : RowsField

/-- `calculateInvoiceBalance` (src/services/storage.ts lines 34-37):
`0` when `rows` is missing or not an array, otherwise the fold of
`acc + (credit - debit)` over the rows starting from `0`. -/
def calculateInvoiceBalance (invoice : Invoice) : ℚ :=
  match invoice.rows with
  | RowsField.arr rows => rows.foldl (fun acc row => acc + (row.credit - row.debit)) 0
  | _ => 0

/-- `getInvoiceInitialAmount` (src/services/storage.ts lines 39-42):
`0` when `rows` is nullish or empty, the first row's `credit` otherwise.
On a non-array `rows` object the source indexes `rows[0]` and reads
`.credit` off `undefined`, which throws — modelled as `none`. -/
def getInvoiceInitialAmount (invoice : Invoice) : Option ℚ :=
  match invoice.rows with
  | RowsField.nullish => some 0
  | RowsField.notArray => none
  | RowsField.arr [] => some 0
  | RowsField.arr (row :: _) => some row.credit

/-- The enriched view model `InvoiceWithSupplier` (src/types.ts):
an invoice with its resolved supplier and the two computed amounts. -/
structure InvoiceWithSupplier where
  id : String
  supplier_id : String
  creation_date : String
  rows : RowsField
  supplier : Supplier
  balance : ℚ
  initialAmount : ℚ

/-- The date of the invoice's first row, `inv.rows[0]?.date` in the
source: `none` models JavaScript's `undefined` when there is no first
row. -/
def firstRowDate (i : InvoiceWithSupplier) : Option String :=
  match i.rows with
  | RowsField.arr (row :: _) => some row.date
  | _ => none

/-- Abstraction of the platform `Date` facilities the filters use on the
(possibly `undefined`) first-row date string:
`monthStr d` models `(new Date(d).getMonth() + 1).toString()`,
`yearStr d` models `new Date(d).getFullYear().toString()`, and
`getTime d` models `new Date(d).getTime()`.  Every theorem quantifies
over all date models, so nothing is assumed about calendar parsing. -/
structure DateModel where
  monthStr : Option String → String
  yearStr : Option String → String
  getTime : Option String → Int

/-- Containment of one character list in another, used to model
JavaScript's `String.prototype.includes`. -/
def charsContain (needle : List Char) : List Char → Bool
  | [] => needle.isEmpty
  | c :: t => List.isPrefixOf needle (c :: t) || charsContain needle t

/-- `s.includes(sub)` on strings. -/
def strIncludes (s sub : String) : Bool :=
  charsContain sub.toList s.toList

/-- JavaScript's `a < b` where `a` is `rows[0]?.date` (possibly
`undefined`): comparing `undefined` against a string is `false`;
two strings compare lexicographically. -/
def optLt (d : Option String) (bound : String) : Bool :=
  match d with
  | none => false
  | some s => decide (s < bound)

/-- JavaScript's `a > b` with `a` possibly `undefined`, as in `optLt`. -/
def optGt (d : Option String) (bound : String) : Bool :=
  match d with
  | none => false
  | some s => decide (bound < s)

/-- The open invoices, `enrichedInvoices.filter(i => i.balance !== 0)`
(src/unnamed/part_001 line 512). -/
def activeInvoices (l : List InvoiceWithSupplier) : List InvoiceWithSupplier :=
  l.filter (fun i => decide (i.balance ≠ 0))

/-- The merchandise bucket,
`activeInvoices.filter(i => i.supplier.is_merchandise)`
(src/unnamed/part_001 line 514). -/
def merchandiseInvoices (l : List InvoiceWithSupplier) : List InvoiceWithSupplier :=
  (activeInvoices l).filter (fun i => i.supplier.is_merchandise)

/-- The payable-services bucket,
`activeInvoices.filter(i => !i.supplier.is_merchandise && i.balance > 0)`
(src/unnamed/part_001 line 515). -/
def toPayInvoices (l : List InvoiceWithSupplier) : List InvoiceWithSupplier :=
  (activeInvoices l).filter (fun i => !i.supplier.is_merchandise && decide (0 < i.balance))

/-- The filter callback of `applyFilters` in `ActiveInvoicesTab`
(src/unnamed/part_001 lines 499-509): name search, month, year and the
two inclusive date bounds, each skipped when its control is empty,
combined by early-return `false`. -/
def filterPred (dm : DateModel) (search month year dateFrom dateTo : String)
    (i : InvoiceWithSupplier) : Bool :=
  if !search.isEmpty && !strIncludes i.supplier.name.toLower search.toLower then false
  else if !month.isEmpty && dm.monthStr (firstRowDate i) != month then false
  else if !year.isEmpty && dm.yearStr (firstRowDate i) != year then false
  else if !dateFrom.isEmpty && optLt (firstRowDate i) dateFrom then false
  else if !dateTo.isEmpty && optGt (firstRowDate i) dateTo then false
  else true

/-- `applyFilters` (src/unnamed/part_001 lines 498-510). -/
def applyFilters (dm : DateModel) (search month year dateFrom dateTo : String)
    (invList : List InvoiceWithSupplier) : List InvoiceWithSupplier :=
  invList.filter (filterPred dm search month year dateFrom dateTo)

/-- The non-balance filters of `HistoryTab`'s query
(src/unnamed/part_001 lines 775-785): the same predicates as
`filterPred` plus the only-merchandise toggle, in source order. -/
def historyFilterPred (dm : DateModel) (search month year dateFrom dateTo : String)
    (onlyMerch : Bool) (i : InvoiceWithSupplier) : Bool :=
  if !search.isEmpty && !strIncludes i.supplier.name.toLower search.toLower then false
  else if onlyMerch && !i.supplier.is_merchandise then false
  else if !month.isEmpty && dm.monthStr (firstRowDate i) != month then false
  else if !year.isEmpty && dm.yearStr (firstRowDate i) != year then false
  else if !dateFrom.isEmpty && optLt (firstRowDate i) dateFrom then false
  else if !dateTo.isEmpty && optGt (firstRowDate i) dateTo then false
  else true

/-- The whole filter body of `HistoryTab`'s query
(src/unnamed/part_001 lines 774-785): settled invoices
(`balance !== 0` rejects) passing every filter predicate. -/
def historyPred (dm : DateModel) (search month year dateFrom dateTo : String)
    (onlyMerch : Bool) (i : InvoiceWithSupplier) : Bool :=
  if i.balance ≠ 0 then false
  else historyFilterPred dm search month year dateFrom dateTo onlyMerch i

/-- The descending-by-first-row-date sort of `HistoryTab`
(src/unnamed/part_001 line 786):
`.sort((a, b) => new Date(b.rows[0]?.date).getTime() - new Date(a.rows[0]?.date).getTime())`,
as a stable merge sort with the comparator's order. -/
def sortDescByDate (dm : DateModel) (l : List InvoiceWithSupplier) :
    List InvoiceWithSupplier :=
  l.mergeSort (fun a b => decide (dm.getTime (firstRowDate b) ≤ dm.getTime (firstRowDate a)))

/-- `historyInvoices` (src/unnamed/part_001 lines 774-786): the settled
invoices passing every filter, sorted most recent first. -/
def historyInvoices (dm : DateModel) (search month year dateFrom dateTo : String)
    (onlyMerch : Bool) (l : List InvoiceWithSupplier) : List InvoiceWithSupplier :=
  sortDescByDate dm (l.filter (historyPred dm search month year dateFrom dateTo onlyMerch))

/-- `totalSettled` (src/unnamed/part_001 line 788):
`historyInvoices.reduce((a, b) => a + b.initialAmount, 0)`. -/
def totalSettled (dm : DateModel) (search month year dateFrom dateTo : String)
    (onlyMerch : Bool) (l : List InvoiceWithSupplier) : ℚ :=
  (historyInvoices dm search month year dateFrom dateTo onlyMerch l).foldl
    (fun a b => a + b.initialAmount) 0

/-- The persisted dataset behind the Supabase tables: the supplier rows
and the invoice rows. -/
structure Database where
  suppliers : List Supplier
  invoices : List Invoice

/-- `getSuppliers` (src/services/storage.ts lines 6-17) on a healthy
store: `select * order by name ascending`. -/
def fetchAllSuppliers (db : Database) : List Supplier :=
  db.suppliers.mergeSort (fun a b => decide (a.name ≤ b.name))

/-- `getInvoices` (src/services/storage.ts lines 19-30) on a healthy
store: `select *`, unordered. -/
def fetchAllInvoices (db : Database) : List Invoice :=
  db.invoices

/-- Modelled from the spec: `deleteSupplier` (src/services/storage.ts
lines 63-72) only issues a delete on the `suppliers` table; the removal
of the referencing invoices is performed by the SQL schema's
`on delete cascade` (cited in the source comment), whose definition is
not under src/.  Per the spec, deleting a supplier removes the supplier
and every invoice whose `supplier_id` references it. -/
def deleteSupplier (id : String) (db : Database) : Database :=
  { suppliers := db.suppliers.filter (fun s => s.id != id),
    invoices := db.invoices.filter (fun i => i.supplier_id != id) }

/-- `deleteAllSuppliers` (src/services/storage.ts lines 74-79): deletes
every invoice row, then every supplier row. -/
def deleteAllSuppliers (_db : Database) : Database :=
  { suppliers := [], invoices := [] }

/-- The export document (src/unnamed/part_003 lines 131-142 and
src/services/storage.ts lines 118-128): full supplier list as fetched
(name-ordered), full invoice list, a timestamp and a version tag. -/
structure ExportDoc where
  suppliers : List Supplier
  invoices : List Invoice
  timestamp : String
  version : String

/-- `exportDatabase`, with the generation timestamp passed in for the
platform clock. -/
def exportDatabase (timestamp : String) (db : Database) : ExportDoc :=
  { suppliers := fetchAllSuppliers db
    invoices := fetchAllInvoices db
    timestamp := timestamp
    version := "2.0 (Supabase)" }

/-- Shape of one top-level slot of a parsed import document, as probed
by `Array.isArray(data.suppliers)` / `Array.isArray(data.invoices)`:
absent, present but not an array, or an array. -/
inductive JsonField (α : Type) where
  | missing
  | notSeq
  | arr (xs : List α)

/-- A parsed import document: the two slots the import routine reads. -/
structure ImportDoc where
  suppliers : JsonField Supplier
  invoices : JsonField Invoice

/-- Serializing an export document with `JSON.stringify` and parsing it
back with `JSON.parse` yields its two lists as array slots. -/
def docOfExport (e : ExportDoc) : ImportDoc :=
  { suppliers := JsonField.arr e.suppliers, invoices := JsonField.arr e.invoices }

/-- Outcome of the external effects one `importDatabase` run performs:
whether `auth.getUser()` returns a user, and whether each of the two
bulk inserts succeeds at the store. -/
structure GatewayRun where
  loggedIn : Bool
  supInsertOk : Bool
  invInsertOk : Bool

/-- `importDatabase` (src/unnamed/part_003 lines 144-190; the
src/services/storage.ts variant lines 128-164 is the same without the
user check).  The argument `parsed` is the outcome of `JSON.parse` on
the input string: `none` when the string is not JSON (the thrown
`SyntaxError` is caught).  The body mirrors the source: user check,
parse, structural validation, wipe, bulk insert suppliers, bulk insert
invoices; every thrown error is caught and becomes `false`, paired here
with the dataset as mutated so far. -/
def importDatabase (g : GatewayRun) (parsed : Option ImportDoc) (db : Database) :
    Bool × Database :=
  if !g.loggedIn then (false, db)
  else
    match parsed with
    | none => (false, db)
    | some doc =>
      match doc.suppliers, doc.invoices with
      | JsonField.arr sups, JsonField.arr invs =>
        let db1 := deleteAllSuppliers db
        if decide (0 < sups.length) && !g.supInsertOk then (false, db1)
        else
          let db2 : Database := { suppliers := db1.suppliers ++ sups, invoices := db1.invoices }
          if decide (0 < invs.length) && !g.invInsertOk then (false, db2)
          else (true, { suppliers := db2.suppliers, invoices := db2.invoices ++ invs })
      | _, _ => (false, db)

/-- `getSuppliers` (src/services/storage.ts lines 6-17) as a function of
the store's response: on error the function logs and returns `[]`,
otherwise it returns the data. -/
def getSuppliersResult (resp : Except String (List Supplier)) : List Supplier :=
  match resp with
  | Except.error _ => []
  | Except.ok data => data

/-- `getInvoices` (src/services/storage.ts lines 19-30) as a function of
the store's response, with the same error handling as `getSuppliersResult`. -/
def getInvoicesResult (resp : Except String (List Invoice)) : List Invoice :=
  match resp with
  | Except.error _ => []
  | Except.ok data => data

theorem foldl_add_map {α : Type} (f : α → ℚ) :
    ∀ (l : List α) (q : ℚ), l.foldl (fun a b => a + f b) q = q + (l.map f).sum := by
  intro l
  induction l with
  | nil => intro q; simp
  | cons x xs ih => intro q; simp [ih]; ring

/-- C1: for every invoice, the balance equals the sum over its rows of
credit minus debit; and it is `0` for an empty row list, for a nullish
`rows` slot and for a malformed (non-array) `rows` slot, returned as a
defensive default rather than an error. -/
theorem calculateInvoiceBalance_spec (id sid cd : String) (rows : List InvoiceRow) :
    calculateInvoiceBalance ⟨id, sid, cd, RowsField.arr rows⟩
        = (rows.map (fun r => r.credit - r.debit)).sum
    ∧ calculateInvoiceBalance ⟨id, sid, cd, RowsField.arr []⟩ = 0
    ∧ calculateInvoiceBalance ⟨id, sid, cd, RowsField.nullish⟩ = 0
    ∧ calculateInvoiceBalance ⟨id, sid, cd, RowsField.notArray⟩ = 0 := by
  refine ⟨?_, rfl, rfl, rfl⟩
  have h := foldl_add_map (fun r => r.credit - r.debit) rows 0
  simpa [calculateInvoiceBalance] using h

/-- C9: applying the same filter predicate set twice in sequence yields
the same result list as applying it once. -/
theorem applyFilters_idempotent (dm : DateModel) (search month year dateFrom dateTo : String)
    (l : List InvoiceWithSupplier) :
    applyFilters dm search month year dateFrom dateTo
        (applyFilters dm search month year dateFrom dateTo l)
      = applyFilters dm search month year dateFrom dateTo l := by
  simp [applyFilters, List.filter_filter, Bool.and_self]

/-- C5: after `deleteSupplier id`, a subsequent `fetchAllInvoices`
contains no invoice whose `supplier_id` references `id`, and the
supplier itself is removed. -/
theorem deleteSupplier_cascade (id : String) (db : Database) :
    (fetchAllInvoices (deleteSupplier id db)).all (fun inv => inv.supplier_id != id) = true
    ∧ ((deleteSupplier id db).suppliers.all (fun s => s.id != id)) = true := by
  constructor
  · rw [List.all_eq_true]
    intro inv hinv
    simp only [fetchAllInvoices, deleteSupplier] at hinv
    exact (List.mem_filter.mp hinv).2
  · rw [List.all_eq_true]
    intro s hs
    simp only [deleteSupplier] at hs
    exact (List.mem_filter.mp hs).2

/-- C4: an import document whose `suppliers` or `invoices` slot is
missing or not a sequence makes `importDatabase` return failure with the
existing dataset completely unchanged, whatever the gateway run looks
like — structural validation precedes every mutation, including the
wipe. -/
theorem import_validation_rejects_malformed (g : GatewayRun) (db : Database)
    (fs : JsonField Supplier) (fi : JsonField Invoice) :
    importDatabase g (some ⟨JsonField.missing, fi⟩) db = (false, db)
    ∧ importDatabase g (some ⟨JsonField.notSeq, fi⟩) db = (false, db)
    ∧ importDatabase g (some ⟨fs, JsonField.missing⟩) db = (false, db)
    ∧ importDatabase g (some ⟨fs, JsonField.notSeq⟩) db = (false, db) := by
  obtain ⟨lg, so, io⟩ := g
  cases lg <;> cases fs <;> cases fi <;> simp [importDatabase]

/-- C8 counterexample: a failed supplier fetch and a failed invoice
fetch return exactly the value returned by a successful fetch of an
empty collection, so the caller cannot distinguish the two. -/
theorem fetch_failure_indistinguishable_from_empty :
    getSuppliersResult (Except.error "network error") = getSuppliersResult (Except.ok [])
    ∧ getInvoicesResult (Except.error "network error") = getInvoicesResult (Except.ok []) :=
  ⟨rfl, rfl⟩

/-- C8 amended: the gateway read operations degrade failure to an empty
list (after logging) rather than reporting it distinctly — an errored
`fetchAllSuppliers` or `fetchAllInvoices` returns `[]`, exactly like a
successful empty fetch, while a successful fetch returns its data. -/
theorem fetch_failure_degrades_to_empty (e : String) (ds : List Supplier) (di : List Invoice) :
    getSuppliersResult (Except.error e) = []
    ∧ getInvoicesResult (Except.error e) = []
    ∧ getSuppliersResult (Except.ok ds) = ds
    ∧ getInvoicesResult (Except.ok di) = di :=
  ⟨rfl, rfl, rfl, rfl⟩

/-- C2: over any enriched invoice list, the merchandise bucket contains
exactly the open invoices (balance nonzero) whose supplier is flagged
merchandise, regardless of balance sign; the payable-services bucket
exactly the open invoices of non-merchandise suppliers with positive
balance; the two buckets are disjoint; and an open non-merchandise
invoice with negative balance is in neither bucket. -/
theorem classification_buckets_spec (l : List InvoiceWithSupplier) (i : InvoiceWithSupplier) :
    (i ∈ merchandiseInvoices l ↔ i ∈ l ∧ i.balance ≠ 0 ∧ i.supplier.is_merchandise = true)
    ∧ (i ∈ toPayInvoices l ↔
        i ∈ l ∧ i.balance ≠ 0 ∧ i.supplier.is_merchandise = false ∧ 0 < i.balance)
    ∧ ¬(i ∈ merchandiseInvoices l ∧ i ∈ toPayInvoices l)
    ∧ (i.supplier.is_merchandise = false → i.balance < 0 →
        i ∉ merchandiseInvoices l ∧ i ∉ toPayInvoices l) := by
  have hm : i ∈ merchandiseInvoices l ↔
      i ∈ l ∧ i.balance ≠ 0 ∧ i.supplier.is_merchandise = true := by
    simp only [merchandiseInvoices, activeInvoices, List.mem_filter, decide_eq_true_eq]
    tauto
  have hp : i ∈ toPayInvoices l ↔
      i ∈ l ∧ i.balance ≠ 0 ∧ i.supplier.is_merchandise = false ∧ 0 < i.balance := by
    simp only [toPayInvoices, activeInvoices, List.mem_filter, decide_eq_true_eq,
      Bool.and_eq_true, Bool.not_eq_true']
    tauto
  refine ⟨hm, hp, ?_, ?_⟩
  · rintro ⟨h1, h2⟩
    have hmt := (hm.mp h1).2.2
    have hpf := (hp.mp h2).2.2.1
    rw [hmt] at hpf
    simp at hpf
  · intro hflag hneg
    constructor
    · intro h1
      have hmt := (hm.mp h1).2.2
      rw [hflag] at hmt
      simp at hmt
    · intro h2
      have hpos := (hp.mp h2).2.2.2
      exact absurd hpos (not_lt.mpr (le_of_lt hneg))

def sampleServiceSupplier : Supplier :=
  { id := "s1", name := "Acme", iban := "", email := "", phone := "", notes := ""
    is_merchandise := false }

/-- An open services invoice that has been overpaid: nonzero negative
balance with a non-merchandise supplier. -/
def sampleOverpaid : InvoiceWithSupplier :=
  { id := "i1", supplier_id := "s1", creation_date := "2024-01-01"
    rows := RowsField.arr [], supplier := sampleServiceSupplier
    balance := -5, initialAmount := 100 }

theorem classification_buckets_witness :
    sampleOverpaid ∉ merchandiseInvoices [sampleOverpaid]
    ∧ sampleOverpaid ∉ toPayInvoices [sampleOverpaid] :=
  (classification_buckets_spec [sampleOverpaid] sampleOverpaid).2.2.2 rfl
    (by norm_num [sampleOverpaid])

theorem jsAdd_none_left (b : Option ℚ) : jsAdd none b = none := by
  cases b <;> rfl

theorem jsAdd_none_right (a : Option ℚ) : jsAdd a none = none := by
  cases a <;> rfl

theorem jsSub_none_left (b : Option ℚ) : jsSub none b = none := by
  cases b <;> rfl

theorem jsSub_none_right (a : Option ℚ) : jsSub a none = none := by
  cases a <;> rfl

theorem jsAdd_some_some (x y : ℚ) : jsAdd (some x) (some y) = some (x + y) := rfl

theorem jsSub_some_some (x y : ℚ) : jsSub (some x) (some y) = some (x - y) := rfl

theorem jsBalance_foldl_none (l : List JSRow) :
    l.foldl (fun acc r => jsAdd acc (jsSub (jsNumber r.credit) (jsNumber r.debit))) none
      = none := by
  induction l with
  | nil => rfl
  | cons x xs ih => simpa [List.foldl_cons, jsAdd_none_left] using ih

theorem jsBalance_foldl_char (l : List JSRow) :
    ∀ q : ℚ,
      l.foldl (fun acc r => jsAdd acc (jsSub (jsNumber r.credit) (jsNumber r.debit))) (some q)
        = if l.all (fun r => (jsNumber r.credit).isSome && (jsNumber r.debit).isSome)
          then some (q + (l.map
              (fun r => (jsNumber r.credit).getD 0 - (jsNumber r.debit).getD 0)).sum)
          else none := by
  induction l with
  | nil => intro q; simp
  | cons x xs ih =>
    intro q
    cases hc : jsNumber x.credit with
    | none =>
      simp [List.foldl_cons, hc, jsSub_none_left, jsAdd_none_right, jsBalance_foldl_none,
        List.all_cons]
    | some c =>
      cases hd : jsNumber x.debit with
      | none =>
        simp [List.foldl_cons, hc, hd, jsSub_none_right, jsAdd_none_right,
          jsBalance_foldl_none, List.all_cons]
      | some d =>
        simp only [List.foldl_cons, hc, hd, jsSub_some_some, jsAdd_some_some]
        rw [ih]
        simp only [List.all_cons, hc, hd, Option.isSome_some, Bool.and_self, Bool.true_and,
          List.map_cons, List.sum_cons, Option.getD_some]
        split
        · rw [add_assoc]
        · rfl

/-- C6 counterexample: an invoice with one row whose `credit` is missing
(`undefined`) and whose `debit` is `0` does not get balance `0` as the
claim predicts — `Number(undefined)` is `NaN`, which poisons the sum. -/
theorem balance_missing_value_not_zero :
    calculateInvoiceBalanceJS [⟨JSVal.undef, JSVal.num 0⟩] ≠ some 0 := by
  simp [calculateInvoiceBalanceJS, jsNumber, jsSub, jsAdd]

/-- C6 amended: in `balance` and `initialAmount` every monetary value is
coerced with JavaScript's `Number` before arithmetic; `null` and booleans
coerce to `0`/`1`, but a missing (`undefined`) or non-numeric value
coerces to `NaN`, which propagates: the balance is the exact sum of the
coerced rows when every `credit`/`debit` coerces to a number, and `NaN`
(not `0` for the offending field) otherwise; likewise `initialAmount` is
`NaN` when the first row's `credit` does not coerce. -/
theorem numeric_coercion_semantics :
    (∀ rows : List JSRow,
      calculateInvoiceBalanceJS rows
        = if rows.all (fun r => (jsNumber r.credit).isSome && (jsNumber r.debit).isSome)
          then some ((rows.map
              (fun r => (jsNumber r.credit).getD 0 - (jsNumber r.debit).getD 0)).sum)
          else none)
    ∧ jsNumber JSVal.nullv = some 0
    ∧ jsNumber JSVal.undef = none
    ∧ jsNumber JSVal.strBad = none
    ∧ (∀ b, jsNumber (JSVal.boolv b) = some (if b then 1 else 0))
    ∧ (∀ (r : JSRow) (rs : List JSRow), jsNumber r.credit = none →
        getInvoiceInitialAmountJS (r :: rs) = none) := by
  refine ⟨?_, rfl, rfl, rfl, fun b => rfl, fun r rs h => ?_⟩
  · intro rows
    have h := jsBalance_foldl_char rows 0
    simpa [calculateInvoiceBalanceJS] using h
  · simpa [getInvoiceInitialAmountJS] using h

theorem numeric_coercion_witness :
    getInvoiceInitialAmountJS [⟨JSVal.undef, JSVal.num 0⟩] = none :=
  numeric_coercion_semantics.2.2.2.2.2 ⟨JSVal.undef, JSVal.num 0⟩ [] rfl

/-- C3: importing the document produced by export, with the gateway
healthy, succeeds and reproduces an identical supplier set (as a
permutation: export fetches them name-ordered) and an identical invoice
list — same records, hence same ids, field values and `supplier_id`
references, with supplier ids preserved. -/
theorem export_import_roundtrip (ts : String) (db : Database) :
    (importDatabase ⟨true, true, true⟩ (some (docOfExport (exportDatabase ts db))) db).1 = true
    ∧ ((importDatabase ⟨true, true, true⟩
          (some (docOfExport (exportDatabase ts db))) db).2.suppliers).Perm db.suppliers
    ∧ (importDatabase ⟨true, true, true⟩
          (some (docOfExport (exportDatabase ts db))) db).2.invoices = db.invoices
    ∧ (((importDatabase ⟨true, true, true⟩
          (some (docOfExport (exportDatabase ts db))) db).2.suppliers.map
            Supplier.id)).Perm (db.suppliers.map Supplier.id) := by
  have h : importDatabase ⟨true, true, true⟩ (some (docOfExport (exportDatabase ts db))) db
      = (true, { suppliers := db.suppliers.mergeSort (fun a b => decide (a.name ≤ b.name)),
                 invoices := db.invoices }) := by
    simp [importDatabase, docOfExport, exportDatabase, fetchAllSuppliers, fetchAllInvoices,
      deleteAllSuppliers]
  have hperm : (db.suppliers.mergeSort (fun a b => decide (a.name ≤ b.name))).Perm
      db.suppliers := List.mergeSort_perm db.suppliers _
  rw [h]
  exact ⟨rfl, hperm, rfl, hperm.map Supplier.id⟩

theorem historyPred_iff (dm : DateModel) (search month year dateFrom dateTo : String)
    (onlyMerch : Bool) (i : InvoiceWithSupplier) :
    historyPred dm search month year dateFrom dateTo onlyMerch i = true ↔
      i.balance = 0
        ∧ historyFilterPred dm search month year dateFrom dateTo onlyMerch i = true := by
  by_cases hb : i.balance = 0 <;> simp [historyPred, hb]

/-- C7: history mode returns, as a permutation of a filter of the input,
exactly the enriched invoices that are settled (balance exactly `0`) and
pass every supplied filter predicate, sorted descending by the first
row's date; and its total-settled aggregate is the arithmetic sum of
`initialAmount` over the returned invoices, `0` when none are
returned. -/
theorem history_mode_spec (dm : DateModel) (search month year dateFrom dateTo : String)
    (onlyMerch : Bool) (l : List InvoiceWithSupplier) :
    (historyInvoices dm search month year dateFrom dateTo onlyMerch l).Perm
        (l.filter (historyPred dm search month year dateFrom dateTo onlyMerch))
    ∧ (∀ i, i ∈ historyInvoices dm search month year dateFrom dateTo onlyMerch l ↔
        i ∈ l ∧ i.balance = 0
          ∧ historyFilterPred dm search month year dateFrom dateTo onlyMerch i = true)
    ∧ List.Sorted
        (fun a b => dm.getTime (firstRowDate b) ≤ dm.getTime (firstRowDate a))
        (historyInvoices dm search month year dateFrom dateTo onlyMerch l)
    ∧ totalSettled dm search month year dateFrom dateTo onlyMerch l
        = ((historyInvoices dm search month year dateFrom dateTo onlyMerch l).map
            (fun i => i.initialAmount)).sum
    ∧ (historyInvoices dm search month year dateFrom dateTo onlyMerch l = [] →
        totalSettled dm search month year dateFrom dateTo onlyMerch l = 0) := by
  have hperm : (historyInvoices dm search month year dateFrom dateTo onlyMerch l).Perm
      (l.filter (historyPred dm search month year dateFrom dateTo onlyMerch)) :=
    List.mergeSort_perm _ _
  refine ⟨hperm, ?_, ?_, ?_, ?_⟩
  · intro i
    rw [hperm.mem_iff, List.mem_filter, historyPred_iff]
  · have htrans : ∀ a b c : InvoiceWithSupplier,
        decide (dm.getTime (firstRowDate b) ≤ dm.getTime (firstRowDate a)) = true →
        decide (dm.getTime (firstRowDate c) ≤ dm.getTime (firstRowDate b)) = true →
        decide (dm.getTime (firstRowDate c) ≤ dm.getTime (firstRowDate a)) = true := by
      intro a b c hab hbc
      rw [decide_eq_true_eq] at *
      exact le_trans hbc hab
    have htotal : ∀ a b : InvoiceWithSupplier,
        (decide (dm.getTime (firstRowDate b) ≤ dm.getTime (firstRowDate a))
          || decide (dm.getTime (firstRowDate a) ≤ dm.getTime (firstRowDate b))) = true := by
      intro a b
      rw [Bool.or_eq_true, decide_eq_true_eq, decide_eq_true_eq]
      exact le_total _ _
    have hp := @List.sorted_mergeSort InvoiceWithSupplier
      (fun a b => decide (dm.getTime (firstRowDate b) ≤ dm.getTime (firstRowDate a)))
      htrans htotal
      (l.filter (historyPred dm search month year dateFrom dateTo onlyMerch))
    refine List.Pairwise.imp ?_ hp
    intro a b hab
    simpa using hab
  · have h := foldl_add_map (fun i : InvoiceWithSupplier => i.initialAmount)
      (historyInvoices dm search month year dateFrom dateTo onlyMerch l) 0
    simpa [totalSettled] using h
  · intro h
    simp [totalSettled, h]

def dmZero : DateModel :=
  { monthStr := fun _ => "", yearStr := fun _ => "", getTime := fun _ => 0 }

theorem history_mode_witness :
    totalSettled dmZero "" "" "" "" "" false [] = 0 :=
  (history_mode_spec dmZero "" "" "" "" "" false []).2.2.2.2
    (by simp [historyInvoices, sortDescByDate])

/-- C10: `importDatabase` is total over its inputs and never escapes
with an exception: an unparseable input string (parse outcome `none`)
yields `false` with the dataset untouched; every run returns some
boolean/dataset pair; a missing user yields `false` untouched; and a
failure of either bulk insert after the wipe is caught and converted to
`false`, with the dataset as mutated so far. -/
theorem importDatabase_total_spec (g : GatewayRun) (db : Database) :
    importDatabase g none db = (false, db)
    ∧ (∀ parsed, ∃ b db2, importDatabase g parsed db = (b, db2))
    ∧ (∀ doc, g.loggedIn = false → importDatabase g (some doc) db = (false, db))
    ∧ (∀ (sups : List Supplier) (invs : List Invoice), g.loggedIn = true →
        g.supInsertOk = false → sups ≠ [] →
        importDatabase g (some ⟨JsonField.arr sups, JsonField.arr invs⟩) db
          = (false, deleteAllSuppliers db))
    ∧ (∀ (sups : List Supplier) (invs : List Invoice), g.loggedIn = true →
        g.supInsertOk = true → g.invInsertOk = false → invs ≠ [] →
        importDatabase g (some ⟨JsonField.arr sups, JsonField.arr invs⟩) db
          = (false, { suppliers := sups, invoices := [] })) := by
  obtain ⟨lg, so, io⟩ := g
  refine ⟨?_, fun parsed => ⟨_, _, rfl⟩, ?_, ?_, ?_⟩
  · cases lg <;> simp [importDatabase]
  · intro doc h
    rw [show GatewayRun.loggedIn ⟨lg, so, io⟩ = lg from rfl] at h
    subst h
    simp [importDatabase]
  · intro sups invs hlg hso hne
    rw [show GatewayRun.loggedIn ⟨lg, so, io⟩ = lg from rfl] at hlg
    rw [show GatewayRun.supInsertOk ⟨lg, so, io⟩ = so from rfl] at hso
    subst hlg; subst hso
    have hpos : 0 < sups.length := List.length_pos.mpr hne
    simp [importDatabase, deleteAllSuppliers, hpos]
  · intro sups invs hlg hso hio hne
    rw [show GatewayRun.loggedIn ⟨lg, so, io⟩ = lg from rfl] at hlg
    rw [show GatewayRun.supInsertOk ⟨lg, so, io⟩ = so from rfl] at hso
    rw [show GatewayRun.invInsertOk ⟨lg, so, io⟩ = io from rfl] at hio
    subst hlg; subst hso; subst hio
    have hpos : 0 < invs.length := List.length_pos.mpr hne
    simp [importDatabase, deleteAllSuppliers, hpos]

theorem importDatabase_total_witness :
    importDatabase ⟨true, false, true⟩
        (some ⟨JsonField.arr [⟨"s1", "Acme", "", "", "", "", false⟩], JsonField.arr []⟩)
        ⟨[], []⟩
      = (false, deleteAllSuppliers ⟨[], []⟩) :=
  (importDatabase_total_spec ⟨true, false, true⟩ ⟨[], []⟩).2.2.2.1
    [⟨"s1", "Acme", "", "", "", "", false⟩] [] rfl rfl (by simp)
